import Mathlib

/-
Verification development for the postgres-to-elasticsearch ETL pipeline.

Shallow embedding of:
  - `etl_state.py` (BaseStorage, JsonFileStorage, RedisStorage, State),
  - `postgres_to_es/entities.py` (ESItem, a pydantic dataclass),
  - `postgres_to_es/etl.py` (ESSaver._get_es_bulk_query, ESSaver.load_to_es,
    PostgresLoader.load_movies, PostgresLoader.transform_data),
  - the `backoff.on_exception(..., max_tries=3, ...)` retry decoration.

Modelling conventions:
  - timestamps (`datetime`) are abstract ordered instants modelled as `Nat`;
    `isoformat` is the canonical decimal rendering and `fromisoformat` its
    partial inverse, so ordering and round-tripping are preserved;
  - JSON (de)serialization of the checkpoint mapping between `State` and its
    storage backend is the identity on the modelled `Checkpoint` values (the
    code round-trips through `json.dumps`/`json.loads`);
  - `json.dumps` on strings, string lists and the bulk-action dict is embedded
    concretely (default separators, `ensure_ascii=True` escaping); Python float
    `repr` of the rating is abstracted to exact-decimal rendering of a rational;
  - I/O (the SQL cursor results, the HTTP response body) is passed in as data;
    the HTTP post and the log calls are recorded as events;
  - exceptions are `Except String`.
-/

/-! ## Checkpoint values (the `State` mapping of `etl_state.py`) -/

/-- A value stored in the checkpoint mapping. The pipeline stores ISO strings
(under `modified`) and lists of serialized lines (under `prepared_query`). -/
inductive Val where
  | vstr : String → Val
  | vlist : List String → Val
deriving DecidableEq

/-- The checkpoint mapping: insertion-ordered string-keyed dictionary,
as a `python` dict of `State.state`. -/
def Checkpoint := List (String × Val)

instance : DecidableEq Checkpoint := by
  unfold Checkpoint
  infer_instance

/-- Dictionary update `d[key] = value`: replace in place if the key exists,
otherwise append at the end (python dict insertion-order semantics). -/
def setKey : Checkpoint → String → Val → Checkpoint
  | [], k, v => [(k, v)]
  | p :: t, k, v => if p.1 = k then (k, v) :: t else p :: setKey t k v

/-- Dictionary lookup `d.get(key)`. -/
def getKey : Checkpoint → String → Option Val
  | [], _ => none
  | p :: t, k => if p.1 = k then some p.2 else getKey t k

/-! ## Storage backends (`JsonFileStorage`, `RedisStorage`) -/

/-- A filesystem for `JsonFileStorage`: path → deserialized file content. -/
def Fs := List (String × Checkpoint)

instance : DecidableEq Fs := by
  unfold Fs
  infer_instance

def lookupFile (fs : Fs) (p : String) : Option Checkpoint :=
  (fs.find? (fun q => q.1 = p)).map (fun q => q.2)

def writeFile : Fs → String → Checkpoint → Fs
  | [], p, c => [(p, c)]
  | q :: t, p, c => if q.1 = p then (p, c) :: t else q :: writeFile t p c

/-- `os.remove` guarded by `os.path.exists`: drop the file if present. -/
def removeFile : Fs → String → Fs
  | [], _ => []
  | q :: t, p => if q.1 = p then removeFile t p else q :: removeFile t p

/-- The two concrete `BaseStorage` implementations of `etl_state.py`:
`JsonFileStorage(file_path)` over a filesystem, and `RedisStorage` whose
single `data` key holds the serialized mapping (`None` when absent). -/
inductive Storage where
  | jsonFile (file_path : Option String) (fs : Fs)
  | redis (data : Option Checkpoint)
deriving DecidableEq

/-- `save_state`: `JsonFileStorage` returns early when `file_path is None`,
otherwise overwrites the file; `RedisStorage` sets the `data` key. -/
def Storage.save_state : Storage → Checkpoint → Storage
  | .jsonFile none fs, _ => .jsonFile none fs
  | .jsonFile (some p) fs, s => .jsonFile (some p) (writeFile fs p s)
  | .redis _, s => .redis (some s)

/-- `retrieve_state`, returning the retrieved mapping and the (possibly
mutated) storage: `JsonFileStorage` with no path returns `{}`; with a path it
reads the file, and on `FileNotFoundError` calls `save_state({})` and returns
`{}`; `RedisStorage` returns `{}` when the `data` key is absent. -/
def Storage.retrieve_state : Storage → Checkpoint × Storage
  | .jsonFile none fs => ([], .jsonFile none fs)
  | .jsonFile (some p) fs =>
      match lookupFile fs p with
      | some d => (d, .jsonFile (some p) fs)
      | none => ([], Storage.save_state (.jsonFile (some p) fs) [])
  | .redis d => (d.getD [], .redis d)

/-- The modelled `TypeError` that `os.path.exists(None)` raises inside
`JsonFileStorage.clean_up` when the storage was built without a path. -/
def pathTypeError : String :=
  "TypeError: stat: path should be string, bytes, os.PathLike or integer, not NoneType"

/-- `clean_up`: `JsonFileStorage` checks `os.path.exists(self.file_path)` —
which raises `TypeError` when `file_path is None` — and removes the file;
`RedisStorage` calls `flushdb()`, emptying the whole database. -/
def Storage.clean_up : Storage → Except String Storage
  | .jsonFile none _ => .error pathTypeError
  | .jsonFile (some p) fs => .ok (.jsonFile (some p) (removeFile fs p))
  | .redis _ => .ok (.redis none)

/-! ## `State` (in-memory dict + write-through storage) -/

/-- `State` of `etl_state.py`: a storage backend plus the in-memory mapping
`self.state`. -/
structure StateS where
  storage : Storage
  dict : Checkpoint
deriving DecidableEq

/-- `State.__init__`: `self.state = self.retrieve_state()` (falsy → `{}`,
which coincides with the empty mapping here). -/
def StateS.init (storage : Storage) : StateS :=
  let r := storage.retrieve_state
  ⟨r.2, r.1⟩

/-- `State.set_state`: update the in-memory dict, then save the whole dict. -/
def StateS.set_state (s : StateS) (k : String) (v : Val) : StateS :=
  let d := setKey s.dict k v
  ⟨s.storage.save_state d, d⟩

/-- `State.get_state`. -/
def StateS.get_state (s : StateS) (k : String) : Option Val :=
  getKey s.dict k

/-- `State.clean_up`: delegates to the storage (the in-memory dict is left
untouched by the code). -/
def StateS.clean_up (s : StateS) : Except String StateS :=
  (s.storage.clean_up).map (fun st => ⟨st, s.dict⟩)

/-! ## Timestamps

`datetime` values are modelled as abstract ordered instants (`Nat`);
`isoformat` renders them canonically and `fromisoformat` parses that
rendering back. -/

def isoformat (d : Nat) : String := toString d

/-- Decimal-digit accumulator for `fromisoformat`. -/
def parseNatFrom (acc : Nat) : List Char → Option Nat
  | [] => some acc
  | c :: cs => if c.isDigit then parseNatFrom (acc * 10 + (c.toNat - 48)) cs else none

def fromisoformat (s : String) : Option Nat :=
  match s.data with
  | [] => none
  | c :: cs => parseNatFrom 0 (c :: cs)

/-! ## `json.dumps` (default separators, `ensure_ascii=True`) -/

/-- A lower-case hexadecimal digit. -/
def hexDigit (n : Nat) : Char :=
  if n < 10 then Char.ofNat (48 + n) else Char.ofNat (87 + n)

/-- Four hexadecimal digits, as used by a `\u` escape. -/
def hex4 (n : Nat) : String :=
  String.mk [hexDigit (n / 4096 % 16), hexDigit (n / 256 % 16),
             hexDigit (n / 16 % 16), hexDigit (n % 16)]

/-- `json.dumps` escaping of one character with `ensure_ascii=True`:
everything outside 0x20–0x7e is escaped, with the usual short escapes and
surrogate pairs past the basic plane. -/
def pyEscapeChar (c : Char) : String :=
  if c = '"' then "\\\""
  else if c = '\\' then "\\\\"
  else if c = '\n' then "\\n"
  else if c = '\t' then "\\t"
  else if c = '\r' then "\\r"
  else if c = Char.ofNat 8 then "\\b"
  else if c = Char.ofNat 12 then "\\f"
  else if c.toNat < 32 then "\\u" ++ hex4 c.toNat
  else if c.toNat < 127 then String.singleton c
  else if c.toNat ≤ 65535 then "\\u" ++ hex4 c.toNat
  else
    let v := c.toNat - 65536
    "\\u" ++ hex4 (55296 + v / 1024) ++ "\\u" ++ hex4 (56320 + v % 1024)

/-- `json.dumps` of a string. -/
def pyJsonStr (s : String) : String :=
  "\"" ++ String.join (s.toList.map pyEscapeChar) ++ "\""

/-- `json.dumps` of a list of strings (default item separator `", "`). -/
def pyJsonStrList (l : List String) : String :=
  "[" ++ String.intercalate ", " (l.map pyJsonStr) ++ "]"

/-- Left-pad the decimal rendering of `m` to `k` digits. -/
def decPad (k : Nat) (m : Nat) : String :=
  let s := toString m
  String.mk (List.replicate (k - s.length) '0') ++ s

/-- Drop trailing `'0'` characters. -/
def trimZeros (s : String) : String :=
  String.mk ((s.toList.reverse.dropWhile (fun c => c = '0')).reverse)

/-- Rendering of the rating as a JSON number. Python's float `repr` is
abstracted to exact-decimal rendering of a rational (`8.5`, `3.0`, ...). -/
def pyJsonNum (q : Rat) : String :=
  let sign := if q.num < 0 then "-" else ""
  let k := ((List.range 30).find? (fun k => (10 ^ k) % q.den = 0)).getD 0
  let m := q.num.natAbs * (10 ^ k) / q.den
  let ip := m / 10 ^ k
  let fp := m % 10 ^ k
  if k = 0 then sign ++ toString ip ++ ".0"
  else
    let fs := trimZeros (decPad k fp)
    sign ++ toString ip ++ "." ++ (if fs = "" then "0" else fs)

/-! ## Entities (`postgres_to_es/entities.py`) -/

/-- `ESItem`, a pydantic dataclass. All fields are declared required in the
source: `imdb_rating: float` and `description: str` are NOT `Optional`.
Fields are listed in source declaration order (the order of `asdict`). -/
structure ESItem where
  id : String
  genres : List String
  writers : List String
  actors : List String
  imdb_rating : Rat
  modified : String
  title : String
  directors : List String
  description : String
deriving DecidableEq

def esItemDefault : ESItem :=
  { id := "", genres := [], writers := [], actors := [], imdb_rating := 0,
    modified := "", title := "", directors := [], description := "" }

/-- `json.dumps(asdict(row))` for an `ESItem`, fields in declaration order,
default separators. -/
def dumpsESItem (r : ESItem) : String :=
  "\x7b\"id\": " ++ pyJsonStr r.id ++
  ", \"genres\": " ++ pyJsonStrList r.genres ++
  ", \"writers\": " ++ pyJsonStrList r.writers ++
  ", \"actors\": " ++ pyJsonStrList r.actors ++
  ", \"imdb_rating\": " ++ pyJsonNum r.imdb_rating ++
  ", \"modified\": " ++ pyJsonStr r.modified ++
  ", \"title\": " ++ pyJsonStr r.title ++
  ", \"directors\": " ++ pyJsonStrList r.directors ++
  ", \"description\": " ++ pyJsonStr r.description ++ "\x7d"

/-- `json.dumps({"index": {"_index": index_name, "_id": row.id}})`. -/
def esIndexAction (index_name : String) (id : String) : String :=
  "\x7b\"index\": \x7b\"_index\": " ++ pyJsonStr index_name ++
  ", \"_id\": " ++ pyJsonStr id ++ "\x7d\x7d"

/-- `ESSaver._get_es_bulk_query`: per row, the action header line followed by
the serialized row, accumulated in order. -/
def get_es_bulk_query (rows : List ESItem) (index_name : String) : List String :=
  rows.bind (fun row => [esIndexAction index_name row.id, dumpsESItem row])

/-! ## The ES saver coroutine (`ESSaver.load_to_es`) -/

/-- Observable actions of one run, in order: checkpoint writes, the HTTP
bulk post, `logging.error` calls for per-item errors, and the final
`State.clean_up`. -/
inductive Event where
  | setSt (k : String) (v : Val)
  | post (payload : String)
  | logErr (msg : String)
  | cleanedUp
deriving DecidableEq

/-- The saver's world: its `State` plus the trace of events so far. -/
structure EsWorld where
  st : StateS
  events : List Event
deriving DecidableEq

/-- One iteration of the `while records := (yield)` loop of
`ESSaver.load_to_es`, fed a non-empty batch `records` and the decoded body
`resp` of the HTTP response (one optional `error` per response item):
1. `prepared_query = self._get_es_bulk_query(records, index_name)`
2. `self.state.set_state("prepared_query", prepared_query)`
3. `str_query = "\n".join(prepared_query) + "\n"` is POSTed to `_bulk`
4. `self.state.set_state("modified", records[0].modified)`
5. each response item carrying an `error` is logged.
(The loop guard keeps `records` non-empty, so `records[0]` is its head.) -/
def load_to_es_batch (w : EsWorld) (records : List ESItem)
    (resp : List (Option String)) (index_name : String) : EsWorld :=
  let pq := get_es_bulk_query records index_name
  let st1 := w.st.set_state "prepared_query" (Val.vlist pq)
  let strQuery := String.intercalate "\n" pq ++ "\n"
  let st2 := st1.set_state "modified" (Val.vstr (records.headD esItemDefault).modified)
  { st := st2,
    events := w.events ++
      ([Event.setSt "prepared_query" (Val.vlist pq),
        Event.post strQuery,
        Event.setSt "modified" (Val.vstr (records.headD esItemDefault).modified)] ++
       resp.filterMap (fun it => it.map Event.logErr)) }

/-- The `except GeneratorExit` branch of `ESSaver.load_to_es`, reached when
the coroutine is closed after the run: `self.state.clean_up()`. -/
def load_to_es_close (w : EsWorld) : Except String EsWorld :=
  (w.st.clean_up).map (fun st => ⟨st, w.events ++ [Event.cleanedUp]⟩)

/-- The `logging.error` messages of a trace, in order. -/
def loggedErrors (evs : List Event) : List String :=
  evs.filterMap (fun e => match e with | .logErr m => some m | _ => none)

/-! ## The transformer (`PostgresLoader.transform_data`) -/

/-- A row of the final `load_movies` query: the film work joined with its
aggregated genre and role-filtered person-name lists. `description` and
`rating` are nullable columns; the `ARRAY_AGG ... FILTER` aggregates are SQL
`NULL` (here `none`) when no row matches. `cast_person_ids` models the
`movies_cast` links used by the film-work-id query. -/
structure FilmWorkRow where
  id : String
  title : String
  description : Option String
  rating : Option Rat
  modified : Nat
  genres : Option (List String)
  actors : Option (List String)
  directors : Option (List String)
  writers : Option (List String)
  cast_person_ids : List String
deriving DecidableEq

/-- Construction of `ESItem` under pydantic validation: the source declares
`imdb_rating: float` and `description: str` (not `Optional`), so a `None`
value for either raises a validation error. -/
def mkESItem (id title : String) (description : Option String)
    (imdb_rating : Option Rat) (modified : String)
    (actors writers directors genres : List String) : Except String ESItem :=
  match imdb_rating, description with
  | none, _ => .error "validation error for ESItem: imdb_rating none is not an allowed value"
  | _, none => .error "validation error for ESItem: description none is not an allowed value"
  | some q, some d =>
      .ok { id := id, genres := genres, writers := writers, actors := actors,
            imdb_rating := q, modified := modified, title := title,
            directors := directors, description := d }

/-- The per-row body of `transform_data`: build an `ESItem` from the row,
with `or []` mapping null aggregates to empty lists and
`film_work["modified"].isoformat()` rendering the timestamp. -/
def transform_row (f : FilmWorkRow) : Except String ESItem :=
  mkESItem f.id f.title f.description f.rating (isoformat f.modified)
    (f.actors.getD []) (f.writers.getD []) (f.directors.getD []) (f.genres.getD [])

/-- The `for film_work in raw_data` loop of `transform_data`: each row is
transformed independently and appended in order; the first failing row
aborts with its exception. -/
def transform_data : List FilmWorkRow → Except String (List ESItem)
  | [] => .ok []
  | r :: rs =>
      match transform_row r with
      | .error e => .error e
      | .ok it =>
          match transform_data rs with
          | .error e => .error e
          | .ok its => .ok (it :: its)

/-! ## The extractor (`PostgresLoader.load_movies`) -/

/-- A `movies_person` row (the columns `load_movies` touches). -/
structure PersonRow where
  uuid : String
  modified : Nat
deriving DecidableEq

/-- The relational source, as the read-only tabular view `load_movies`
queries: the person table and the joined film-work row set. -/
structure Db where
  persons : List PersonRow
  filmworks : List FilmWorkRow
deriving DecidableEq

/-- `SELECT MIN("movies_person"."modified") FROM "movies_person"`
(SQL `NULL`, here `none`, when the table is empty). -/
def minPersonModified (persons : List PersonRow) : Option Nat :=
  (persons.map (fun p => p.modified)).minimum?

/-- Python truthiness of the stored watermark: `None`, the empty string and
the empty list are falsy. -/
def isFalsy : Option Val → Bool
  | none => true
  | some (.vstr s) => s = ""
  | some (.vlist l) => l.isEmpty

/-- The watermark `load_movies` runs its incremental queries with:
`modified = self.state.get_state("modified")`; when falsy it is the minimum
person modification time, otherwise `datetime.fromisoformat(modified)`.
`none` models the SQL `NULL` watermark of an empty person table (a stored
non-string or unparseable value would raise; it never arises in runs). -/
def effectiveModified (st : StateS) (db : Db) : Option Nat :=
  let m := st.get_state "modified"
  if isFalsy m then minPersonModified db.persons
  else
    match m with
    | some (.vstr s) => fromisoformat s
    | _ => none

/-- The SQL predicate `col >= watermark`: never true against a `NULL`
watermark. -/
def wmMatches : Option Nat → Nat → Bool
  | none, _ => false
  | some w, d => w ≤ d

/-- Stable insertion (descending by `modified`) for `ORDER BY modified DESC`. -/
def insertDesc (x : FilmWorkRow) : List FilmWorkRow → List FilmWorkRow
  | [] => [x]
  | y :: ys => if y.modified < x.modified then x :: y :: ys else y :: insertDesc x ys

def sortByModifiedDesc (l : List FilmWorkRow) : List FilmWorkRow :=
  l.foldr insertDesc []

/-- The three queries of `load_movies` after the watermark is fixed:
person ids modified at or after the watermark; film-work ids whose work was
modified at or after the watermark or is linked to one of those persons;
the full joined rows for those ids, ordered by `modified DESC`. -/
def selectRows (db : Db) (wm : Option Nat) : List FilmWorkRow :=
  let cast_ids := (db.persons.filter (fun p => wmMatches wm p.modified)).map
    (fun p => p.uuid)
  let film_work_ids := (db.filmworks.filter (fun fw =>
    wmMatches wm fw.modified ||
    fw.cast_person_ids.any (fun pid => cast_ids.contains pid))).map (fun fw => fw.id)
  sortByModifiedDesc (db.filmworks.filter (fun fw => film_work_ids.contains fw.id))

/-- `PostgresLoader.BATCH_LIMIT`. -/
def BATCH_LIMIT : Nat := 100

/-- Fuel-driven chunking; with fuel ≥ the list length this is exactly
`cur.fetchmany(n)` iterated until exhaustion. -/
def chunksOfFuel (n : Nat) : Nat → List α → List (List α)
  | _, [] => []
  | 0, _ :: _ => []
  | fuel + 1, x :: xs => ((x :: xs).take n) :: chunksOfFuel n fuel ((x :: xs).drop n)

/-- The `while rows := cur.fetchmany(self.BATCH_LIMIT)` loop: successive
batches of at most `n` rows; only the final batch may be shorter. -/
def chunksOf (n : Nat) (l : List α) : List (List α) :=
  chunksOfFuel n l.length l

/-- The batch loop downstream of the cursor: each fetched batch is sent to
`transform_data` and the resulting records to the saver coroutine, paired
with the HTTP response body that batch receives. -/
def runEtlBatches (w : EsWorld) (index_name : String) :
    List (List FilmWorkRow × List (Option String)) → Except String EsWorld
  | [] => .ok w
  | (rows, resp) :: rest => do
      let items ← transform_data rows
      runEtlBatches (load_to_es_batch w items resp index_name) index_name rest

/-- `PostgresLoader.load_movies` wired to the transform and saver coroutines
(as `load_data.pipeline` does), with the sink responses injected: fix the
watermark, run the incremental queries, fetch in `BATCH_LIMIT`-sized batches
and push each through transform and saver. -/
def load_movies (st : StateS) (db : Db)
    (resps : List (List (Option String))) (index_name : String) :
    Except String EsWorld :=
  runEtlBatches ⟨st, []⟩ index_name
    ((chunksOf BATCH_LIMIT (selectRows db (effectiveModified st db))).zip resps)

/-! ## The retry decorations (`backoff.on_exception`) and the failure path
of a sink send

`PostgresLoader.load_movies` is decorated with
`backoff.on_exception(backoff.expo, OperationalError, max_tries=3, ...)`;
`ESSaver.load_to_es` carries
`backoff.on_exception(backoff.expo, (Timeout, ConnectionError), max_tries=3, ...)`
ABOVE the `@coroutine` decorator, so it wraps the coroutine-constructor call,
not the sends into the running generator. -/

/-- The exception classes the two decorations name:
`psycopg2.OperationalError`, `requests.exceptions.ConnectionError` and
`requests.exceptions.Timeout`. -/
inductive PyExc where
  | operationalError (msg : String)
  | connectionError (msg : String)
  | timeout (msg : String)
deriving DecidableEq

/-- The exception tuple of `load_movies`'s decoration: only
`OperationalError` is retried; anything else propagates uncaught. -/
def pgRetryable : PyExc → Bool
  | .operationalError _ => true
  | _ => false

/-- The exception tuple of `load_to_es`'s decoration:
`requests.exceptions.Timeout` and `requests.exceptions.ConnectionError`. -/
def esRetryable : PyExc → Bool
  | .connectionError _ => true
  | .timeout _ => true
  | _ => false

/-- `max_tries=3`, as passed to `backoff.on_exception` on both
`ESSaver.load_to_es` and `PostgresLoader.load_movies`. -/
def MAX_TRIES : Nat := 3

/-- `backoff.on_exception(backoff.expo, excs, max_tries=n, jitter=...)`
applied to a call whose `i`-th attempt yields `f i`: attempts are made until
one succeeds or `n` tries have been used; an exception outside the `excs`
tuple (`retryable e = false`) is not caught and propagates at once, and the
final try's exception propagates. The backoff delays (exponential, with
random jitter) only affect timing, not results, and are not modelled. -/
def retryFrom (retryable : ε → Bool) (f : Nat → Except ε α) (i : Nat) :
    Nat → Except ε α
  | 0 => f i
  | 1 => f i
  | n + 2 =>
      match f i with
      | .ok a => .ok a
      | .error e =>
          if retryable e then retryFrom retryable f (i + 1) (n + 1) else .error e

/-- The decorated call: first attempt is attempt `0`. -/
def onException (retryable : ε → Bool) (f : Nat → Except ε α)
    (max_tries : Nat) : Except ε α :=
  retryFrom retryable f 0 max_tries

/-- Modelled from the spec: the `@coroutine` decorator lives in
`postgres_to_es/utils.py`, which is not under src/; per the spec's
send-based staged-pipeline description (stages are generators primed to
their first suspension point, suspending at batch boundaries), it calls the
generator function and advances the generator to its first `yield`. For
`load_to_es` that executes only the `try`/`while` loop header — no HTTP
request — so priming cannot raise `Timeout`/`ConnectionError`; the primed
coroutine is its captured `State`. -/
def coroutinePrime (st : StateS) : Except PyExc StateS := .ok st

/-- Outcome of driving the saver generator: the world reached, plus the
exception that escaped `coro.send` (if any). -/
structure SendOutcome where
  world : EsWorld
  raised : Option PyExc
deriving DecidableEq

/-- One `while records := (yield)` iteration of `load_to_es` when the
`requests.post` call itself may raise (it runs inside the generator body,
during `coro.send`, outside the decorated constructor call):
`prepared_query` is persisted and the post attempted; if the post raises,
the exception — not being `GeneratorExit` — propagates out of the generator
before `set_state("modified", ...)` runs, leaving the in-flight payload
persisted and the watermark untouched. On a successful post this agrees
with `load_to_es_batch`. -/
def load_to_es_send (w : EsWorld) (records : List ESItem)
    (postResult : Except PyExc (List (Option String))) (index_name : String) :
    SendOutcome :=
  let pq := get_es_bulk_query records index_name
  let st1 := w.st.set_state "prepared_query" (Val.vlist pq)
  let strQuery := String.intercalate "\n" pq ++ "\n"
  match postResult with
  | .error e =>
      ⟨⟨st1, w.events ++ [Event.setSt "prepared_query" (Val.vlist pq),
          Event.post strQuery]⟩, some e⟩
  | .ok resp =>
      let st2 := st1.set_state "modified"
        (Val.vstr (records.headD esItemDefault).modified)
      ⟨⟨st2, w.events ++
          ([Event.setSt "prepared_query" (Val.vlist pq),
            Event.post strQuery,
            Event.setSt "modified" (Val.vstr (records.headD esItemDefault).modified)] ++
           resp.filterMap (fun it => it.map Event.logErr))⟩, none⟩

/-- The `coro.send(rows)` loop of `load_movies` when sink posts may raise:
each batch is sent in turn; an exception escaping a send propagates through
`load_movies` (whose own decoration retries only `OperationalError`) and
aborts the run — no further batches are sent and no resend of the failed
one is attempted. -/
def run_saver_sends (w : EsWorld) (index_name : String) :
    List (List ESItem × Except PyExc (List (Option String))) → SendOutcome
  | [] => ⟨w, none⟩
  | (records, post) :: rest =>
      let o := load_to_es_send w records post index_name
      match o.raised with
      | some e => ⟨o.world, some e⟩
      | none => run_saver_sends o.world index_name rest

/-- The attempted HTTP posts of a trace. -/
def postedPayloads (evs : List Event) : List String :=
  evs.filterMap (fun e => match e with | .post p => some p | _ => none)

/-! ## Concrete runs used by the theorems below -/

/-- A one-document batch. -/
def c1Item : ESItem :=
  { id := "fw1", genres := ["Drama"], writers := [], actors := ["Ada Lovelace"],
    imdb_rating := 8, modified := "100", title := "Work One",
    directors := [], description := "a film work" }

/-- A checkpoint already holding an in-flight `prepared_query` payload. -/
def c1State : StateS :=
  StateS.init (Storage.redis (some [("prepared_query", Val.vlist ["SENTINEL"])]))

/-- The saver invoked on that checkpoint with a fresh batch. -/
def c1Run : EsWorld := load_to_es_batch ⟨c1State, []⟩ [c1Item] [] "movies"

/-- 101 changed film works with pairwise distinct modification times
`300, 299, ..., 200` (ids `"0"`..`"100"`), so that `BATCH_LIMIT = 100`
splits the run into two batches. -/
def c2Row (i : Nat) : FilmWorkRow :=
  { id := toString i, title := "t", description := some "d", rating := some 5,
    modified := 300 - i, genres := some ["g"], actors := some ["a"],
    directors := none, writers := none, cast_person_ids := [] }

def c2Db : Db := { persons := [], filmworks := (List.range 101).map c2Row }

/-- A checkpoint whose watermark predates every row. -/
def c2State : StateS :=
  StateS.init (Storage.redis (some [("modified", Val.vstr "0")]))

/-- The batches `load_movies` produces on `c2Db`, each paired with an
all-success sink response. -/
def c2Batches : List (List FilmWorkRow × List (Option String)) :=
  (chunksOf BATCH_LIMIT (selectRows c2Db (effectiveModified c2State c2Db))).zip [[], []]

/-- The run stopped right after the first batch was indexed. -/
def c2Mid : Except String EsWorld := runEtlBatches ⟨c2State, []⟩ "movies" (c2Batches.take 1)

/-- The stored watermark of a run result. -/
def exceptGetModified : Except String EsWorld → Option Val
  | .ok w => w.st.get_state "modified"
  | .error _ => none

/-- A checkpoint holding a watermark, about to be cleaned up. -/
def c3State : StateS :=
  StateS.init (Storage.redis (some [("modified", Val.vstr "42")]))

/-- What the next invocation's `State.__init__` retrieves for `modified`
after the saver coroutine is closed (`none` result of the outer match means
the close itself raised). -/
def afterCloseModified (w : EsWorld) : Option (Option Val) :=
  match load_to_es_close w with
  | .ok w2 => some ((StateS.init w2.st.storage).get_state "modified")
  | .error _ => none

/-- An empty relational source (the value is irrelevant to the retry
arithmetic). -/
def dbEmpty : Db := { persons := [], filmworks := [] }

/-- A source call raising `OperationalError` on attempts 0, 1 and 2 and
succeeding on attempt 3. -/
def c4FourthOk : Nat → Except PyExc Db :=
  fun i => if i < 3 then .error (.operationalError ("attempt " ++ toString i)) else .ok dbEmpty

/-- A source call that always raises `OperationalError`. -/
def c4AllFail : Nat → Except PyExc Db :=
  fun i => .error (.operationalError (toString i))

/-- A source call raising `OperationalError` once, then succeeding. -/
def c4Recover : Nat → Except PyExc Db :=
  fun i => if i = 0 then .error (.operationalError "boom") else .ok dbEmpty

/-- A source call through which a sink `ConnectionError` propagates: not in
`load_movies`'s exception tuple, so never retried. -/
def c4Passthrough : Nat → Except PyExc Db :=
  fun _ => .error (.connectionError "refused")

/-- A saver whose checkpoint holds a watermark, fed one batch whose post
raises `ConnectionError`. -/
def c4World : EsWorld :=
  ⟨StateS.init (Storage.redis (some [("modified", Val.vstr "7")])), []⟩

def c4SinkBatch : List ESItem := [{ esItemDefault with id := "s1", modified := "90" }]

def c4SinkRun : SendOutcome :=
  run_saver_sends c4World "movies" [(c4SinkBatch, .error (.connectionError "refused"))]

/-- A well-formed source row whose `rating` is SQL `NULL`. -/
def c5Row : FilmWorkRow :=
  { id := "fw2", title := "no rating yet", description := some "plot",
    rating := none, modified := 7, genres := some ["Drama"],
    actors := some ["Ada Lovelace"], directors := none, writers := none,
    cast_person_ids := [] }

/-- A row with both nullable scalar columns present. -/
def c5GoodRow : FilmWorkRow :=
  { id := "fw3", title := "rated", description := some "plot",
    rating := some ((17 : Rat) / 2), modified := 8, genres := none,
    actors := some ["Ada Lovelace"], directors := none, writers := none,
    cast_person_ids := [] }

def c6World : EsWorld := ⟨StateS.init (Storage.redis none), []⟩

/-- A batch of rows with null aggregates in various positions. -/
def c8Rows : List FilmWorkRow :=
  [{ id := "a", title := "ta", description := some "da", rating := some 1,
     modified := 10, genres := none, actors := none, directors := none,
     writers := none, cast_person_ids := [] },
   { id := "b", title := "tb", description := some "db", rating := some 2,
     modified := 11, genres := some ["g1", "g2"], actors := some ["p q"],
     directors := some [], writers := none, cast_person_ids := [] }]

/-- The documents `transform_data` yields on `c8Rows`. -/
def c8Items : List ESItem :=
  [{ id := "a", genres := [], writers := [], actors := [], imdb_rating := 1,
     modified := "10", title := "ta", directors := [], description := "da" },
   { id := "b", genres := ["g1", "g2"], writers := [], actors := ["p q"],
     imdb_rating := 2, modified := "11", title := "tb", directors := [],
     description := "db" }]

/-- A one-document batch for the saver, over an empty checkpoint. -/
def c6Doc : ESItem :=
  { id := "fw9", genres := ["Sci-Fi"], writers := ["w x"], actors := [],
    imdb_rating := 4, modified := "55", title := "Nine", directors := ["d y"],
    description := "ninth" }

/-- A two-document batch whose sink response rejects exactly one item. -/
def c7Records : List ESItem :=
  [{ esItemDefault with id := "r1", modified := "70" },
   { esItemDefault with id := "r2", modified := "60" }]

def c7Resp : List (Option String) := [none, some "mapper_parsing_exception"]

/-- An empty checkpoint (cold start). -/
def c9State : StateS := StateS.init (Storage.redis none)

def c9Db : Db :=
  { persons := [{ uuid := "p1", modified := 5 }, { uuid := "p2", modified := 3 },
                { uuid := "p3", modified := 9 }],
    filmworks := [] }

deriving instance DecidableEq for Except

/-! ## Helper lemmas -/

theorem getKey_setKey_self (c : Checkpoint) (k : String) (v : Val) :
    getKey (setKey c k v) k = some v := by
  induction c with
  | nil => simp [setKey, getKey]
  | cons p t ih =>
      by_cases h : p.1 = k
      · simp [setKey, getKey, h]
      · simp [setKey, getKey, h, ih]

theorem getKey_setKey_other (c : Checkpoint) (k k2 : String) (v : Val)
    (h : ¬ k2 = k) : getKey (setKey c k2 v) k = getKey c k := by
  induction c with
  | nil => simp [setKey, getKey, h]
  | cons p t ih =>
      by_cases hp : p.1 = k2
      · simp [setKey, getKey, hp, h]
      · simp [setKey, getKey, hp, ih]

theorem lookupFile_removeFile (fs : Fs) (p : String) :
    lookupFile (removeFile fs p) p = none := by
  induction fs with
  | nil => rfl
  | cons q t ih =>
      by_cases h : q.1 = p
      · simp [removeFile, h, ih]
      · simp [removeFile, lookupFile, List.find?, h] at ih ⊢
        exact ih

theorem loggedErrors_append (a b : List Event) :
    loggedErrors (a ++ b) = loggedErrors a ++ loggedErrors b := by
  simp [loggedErrors, List.filterMap_append]

theorem loggedErrors_of_logs (resp : List (Option String)) :
    loggedErrors (resp.filterMap (fun it => it.map Event.logErr)) = resp.filterMap id := by
  induction resp with
  | nil => rfl
  | cons it t ih =>
      cases it with
      | none => simpa [List.filterMap_cons] using ih
      | some m => simpa [List.filterMap_cons, loggedErrors] using ih

theorem bulk_query_length (docs : List ESItem) (name : String) :
    (get_es_bulk_query docs name).length = 2 * docs.length := by
  induction docs with
  | nil => rfl
  | cons d ds ih =>
      simp [get_es_bulk_query, List.cons_bind] at *
      omega

theorem bulk_query_alternation (name : String) (docs : List ESItem) (i : Nat) :
    (get_es_bulk_query docs name).get? (2 * i)
      = (docs.get? i).map (fun d => esIndexAction name d.id)
    ∧ (get_es_bulk_query docs name).get? (2 * i + 1)
      = (docs.get? i).map dumpsESItem := by
  induction docs generalizing i with
  | nil => simp [get_es_bulk_query]
  | cons d ds ih =>
      cases i with
      | zero => simp [get_es_bulk_query, List.cons_bind]
      | succ j =>
          have h2 : 2 * (j + 1) = 2 * j + 1 + 1 := by ring
          rw [h2]
          simpa [get_es_bulk_query, List.cons_bind] using ih j

theorem transform_row_ok_fields (r : FilmWorkRow) (it : ESItem)
    (h : transform_row r = .ok it) :
    it.genres = r.genres.getD [] ∧ it.actors = r.actors.getD []
    ∧ it.directors = r.directors.getD [] ∧ it.writers = r.writers.getD [] := by
  cases hr : r.rating with
  | none => simp [transform_row, mkESItem, hr] at h
  | some q =>
      cases hd : r.description with
      | none => simp [transform_row, mkESItem, hr, hd] at h
      | some d =>
          simp [transform_row, mkESItem, hr, hd] at h
          subst h
          simp

/-! ## Claims -/

/-- C3, counterexample. On normal termination (`GeneratorExit` →
`State.clean_up`) with the Redis backend of `load_data.pipeline`, the
`modified` watermark is NOT retained: the storage held `modified = "42"`
before the close, and the next invocation's `State.__init__` retrieves
nothing for `modified`. -/
theorem c3_watermark_not_retained :
    c3State.get_state "modified" = some (Val.vstr "42")
    ∧ afterCloseModified ⟨c3State, []⟩ = some none := by
  decide

/-- C3, amended. On normal termination the saver's `clean_up` clears the
ENTIRE persisted checkpoint — the in-flight `prepared_query` AND the
`modified` watermark — for both storage backends: a later `retrieve_state`
on the cleaned storage yields the empty mapping. -/
theorem c3_cleanup_wipes_whole_checkpoint (d : Option Checkpoint)
    (dict : Checkpoint) (ev : List Event) (p : String) (fs : Fs) :
    (load_to_es_close ⟨⟨.redis d, dict⟩, ev⟩).map
        (fun w => w.st.storage.retrieve_state.1) = .ok []
    ∧ (load_to_es_close ⟨⟨.jsonFile (some p) fs, dict⟩, ev⟩).map
        (fun w => w.st.storage.retrieve_state.1) = .ok [] := by
  constructor
  · rfl
  · simp [load_to_es_close, StateS.clean_up, Storage.clean_up, Except.map,
      Storage.retrieve_state, lookupFile_removeFile]

theorem c3_cleanup_wipes_whole_checkpoint_witness :
    (load_to_es_close ⟨⟨.redis (some [("modified", Val.vstr "42")]), [("modified", Val.vstr "42")]⟩, []⟩).map
        (fun w => w.st.storage.retrieve_state.1) = .ok []
    ∧ (load_to_es_close ⟨⟨.jsonFile (some "st.json") [("st.json", [("modified", Val.vstr "42")])], [("modified", Val.vstr "42")]⟩, []⟩).map
        (fun w => w.st.storage.retrieve_state.1) = .ok [] :=
  c3_cleanup_wipes_whole_checkpoint (some [("modified", Val.vstr "42")])
    [("modified", Val.vstr "42")] [] "st.json" [("st.json", [("modified", Val.vstr "42")])]

/-- C4, counterexample. The claim fails on both of its halves. Sink: the
`backoff` decoration on `load_to_es` wraps only the coroutine constructor,
so a `ConnectionError` — a class the decoration lists as retryable — raised
by the very first post during `coro.send` aborts the run after exactly ONE
attempt (not after 3 retried failures): the run raises it, the trace holds a
single post, the watermark is unchanged and the in-flight payload stays
persisted. Source: under `max_tries=3`, three consecutive
`OperationalError`s abort `load_movies` with the 3rd failure; attempt 3,
which would have succeeded, is never made — so no "4th consecutive failure"
is ever reached. -/
theorem c4_sink_unretried_and_third_source_failure_fatal :
    esRetryable (.connectionError "refused") = true
    ∧ c4SinkRun.raised = some (.connectionError "refused")
    ∧ (postedPayloads c4SinkRun.world.events).length = 1
    ∧ c4SinkRun.world.st.get_state "modified" = some (Val.vstr "7")
    ∧ c4SinkRun.world.st.get_state "prepared_query"
        = some (Val.vlist (get_es_bulk_query c4SinkBatch "movies"))
    ∧ MAX_TRIES = 3
    ∧ onException pgRetryable c4FourthOk MAX_TRIES
        = .error (.operationalError "attempt 2")
    ∧ c4FourthOk 3 = .ok dbEmpty := by
  decide

/-- C4, amended. Only the Extractor's source calls are retried:
`load_movies`'s `backoff.on_exception(..., OperationalError, max_tries=3,
jitter=...)` retries an operational error with exponential backoff plus
random jitter for at most 3 TOTAL attempts — up to 2 failed attempts are
retried, the 3rd consecutive failure is fatal and aborts the run (without
advancing the watermark), a recovery within the budget succeeds, and any
other exception propagates at once. The Indexer's sink calls are NOT
retried at all: its decoration sits above `@coroutine` and therefore wraps
the constructor-and-prime call, which cannot raise `Timeout` or
`ConnectionError` (the decoration is vacuous), while the actual
`requests.post` runs inside the generator during `coro.send`, outside the
decorated call — so the FIRST sink connection/timeout failure aborts the
run after a single attempt, leaving the in-flight `prepared_query`
persisted and the watermark unchanged. -/
theorem c4_source_retried_sink_send_undecorated (st : StateS) (w : EsWorld)
    (records : List ESItem) (e : PyExc)
    (rest : List (List ESItem × Except PyExc (List (Option String))))
    (name : String)
    (fa fb fc : Nat → Except PyExc Db) (e0 e1 e2 eb m : String) (d : Db)
    (h0 : fa 0 = .error (.operationalError e0))
    (h1 : fa 1 = .error (.operationalError e1))
    (h2 : fa 2 = .error (.operationalError e2))
    (hb0 : fb 0 = .error (.operationalError eb)) (hb1 : fb 1 = .ok d)
    (hc0 : fc 0 = .error (.connectionError m))
    (_hre : esRetryable e = true) :
    onException esRetryable (fun _ => coroutinePrime st) MAX_TRIES = .ok st
    ∧ (run_saver_sends w name ((records, .error e) :: rest)).raised = some e
    ∧ postedPayloads (run_saver_sends w name ((records, .error e) :: rest)).world.events
        = postedPayloads w.events
          ++ [String.intercalate "\n" (get_es_bulk_query records name) ++ "\n"]
    ∧ (run_saver_sends w name ((records, .error e) :: rest)).world.st.get_state "modified"
        = w.st.get_state "modified"
    ∧ (run_saver_sends w name ((records, .error e) :: rest)).world.st.get_state "prepared_query"
        = some (Val.vlist (get_es_bulk_query records name))
    ∧ onException pgRetryable fa MAX_TRIES = .error (.operationalError e2)
    ∧ onException pgRetryable fb MAX_TRIES = .ok d
    ∧ onException pgRetryable fc MAX_TRIES = .error (.connectionError m) := by
  have hq : ¬ ("prepared_query" : String) = "modified" := by decide
  refine ⟨?_, ?_, ?_, ?_, ?_, ?_, ?_, ?_⟩
  · simp [onException, MAX_TRIES, retryFrom, coroutinePrime]
  · simp [run_saver_sends, load_to_es_send]
  · simp [run_saver_sends, load_to_es_send, postedPayloads, List.filterMap_append]
  · simp [run_saver_sends, load_to_es_send, StateS.set_state, StateS.get_state,
      getKey_setKey_other _ _ _ _ hq]
  · simp [run_saver_sends, load_to_es_send, StateS.set_state, StateS.get_state,
      getKey_setKey_self]
  · simp [onException, MAX_TRIES, retryFrom, pgRetryable, h0, h1, h2]
  · simp [onException, MAX_TRIES, retryFrom, pgRetryable, hb0, hb1]
  · simp [onException, MAX_TRIES, retryFrom, pgRetryable, hc0]

theorem c4_source_retried_sink_send_undecorated_witness :
    (c4AllFail 0 = .error (.operationalError "0")
      ∧ c4Recover 1 = .ok dbEmpty
      ∧ c4Passthrough 0 = .error (.connectionError "refused")
      ∧ esRetryable (.connectionError "refused") = true)
    ∧ (onException esRetryable (fun _ => coroutinePrime (StateS.init (Storage.redis none))) MAX_TRIES
        = .ok (StateS.init (Storage.redis none))
      ∧ (run_saver_sends c4World "movies"
            ((c4SinkBatch, .error (.connectionError "refused")) :: [])).raised
          = some (.connectionError "refused")
      ∧ postedPayloads (run_saver_sends c4World "movies"
            ((c4SinkBatch, .error (.connectionError "refused")) :: [])).world.events
          = postedPayloads c4World.events
            ++ [String.intercalate "\n" (get_es_bulk_query c4SinkBatch "movies") ++ "\n"]
      ∧ (run_saver_sends c4World "movies"
            ((c4SinkBatch, .error (.connectionError "refused")) :: [])).world.st.get_state "modified"
          = c4World.st.get_state "modified"
      ∧ (run_saver_sends c4World "movies"
            ((c4SinkBatch, .error (.connectionError "refused")) :: [])).world.st.get_state "prepared_query"
          = some (Val.vlist (get_es_bulk_query c4SinkBatch "movies"))
      ∧ onException pgRetryable c4AllFail MAX_TRIES = .error (.operationalError "2")
      ∧ onException pgRetryable c4Recover MAX_TRIES = .ok dbEmpty
      ∧ onException pgRetryable c4Passthrough MAX_TRIES = .error (.connectionError "refused")) :=
  ⟨⟨rfl, rfl, rfl, by decide⟩,
   c4_source_retried_sink_send_undecorated (StateS.init (Storage.redis none))
     c4World c4SinkBatch (.connectionError "refused") [] "movies"
     c4AllFail c4Recover c4Passthrough "0" "1" "2" "boom" "refused" dbEmpty
     rfl rfl rfl rfl rfl rfl (by decide)⟩

/-- C5, counterexample. `ESItem` declares `imdb_rating: float` (not
`Optional[float]`), so the Transformer is NOT total on well-formed rows with
a null `rating`: pydantic validation fails on such a row instead of
producing a Document with an absent rating. -/
theorem c5_null_rating_raises :
    c5Row.rating = none
    ∧ transform_row c5Row
      = .error "validation error for ESItem: imdb_rating none is not an allowed value" := by
  decide

/-- C5, amended. The Transformer is total on well-formed rows whose `rating`
and `description` are both non-null: it maps them directly into an `ESItem`
(null aggregates becoming empty lists) and cannot fail; rows with a null
`rating` or `description` instead fail `ESItem` validation, because the
dataclass declares those fields as required. -/
theorem c5_total_on_nonnull_scalars (r : FilmWorkRow) (q : Rat) (d : String)
    (h1 : r.rating = some q) (h2 : r.description = some d) :
    transform_row r
      = .ok { id := r.id, genres := r.genres.getD [], writers := r.writers.getD [],
              actors := r.actors.getD [], imdb_rating := q,
              modified := isoformat r.modified, title := r.title,
              directors := r.directors.getD [], description := d } := by
  simp [transform_row, mkESItem, h1, h2]

theorem c5_total_on_nonnull_scalars_witness :
    c5GoodRow.rating = some ((17 : Rat) / 2)
    ∧ c5GoodRow.description = some "plot"
    ∧ transform_row c5GoodRow
      = .ok { id := c5GoodRow.id, genres := c5GoodRow.genres.getD [],
              writers := c5GoodRow.writers.getD [],
              actors := c5GoodRow.actors.getD [],
              imdb_rating := (17 : Rat) / 2,
              modified := isoformat c5GoodRow.modified, title := c5GoodRow.title,
              directors := c5GoodRow.directors.getD [], description := "plot" } :=
  ⟨rfl, rfl, c5_total_on_nonnull_scalars c5GoodRow ((17 : Rat) / 2) "plot" rfl rfl⟩

/-- C9. When the checkpoint holds no watermark (`modified` absent, or stored
as the empty string, both falsy in the `if not modified` test), `load_movies`
uses `SELECT MIN("movies_person"."modified")` — the minimum modification
time across all person records — as the watermark for its incremental
queries. -/
theorem c9_cold_start_uses_min_person_modified (st : StateS) (db : Db)
    (h : st.get_state "modified" = none ∨ st.get_state "modified" = some (Val.vstr "")) :
    effectiveModified st db = minPersonModified db.persons := by
  rcases h with h | h <;> simp [effectiveModified, isFalsy, h]

theorem c9_cold_start_witness :
    (c9State.get_state "modified" = none
      ∨ c9State.get_state "modified" = some (Val.vstr ""))
    ∧ effectiveModified c9State c9Db = minPersonModified c9Db.persons
    ∧ minPersonModified c9Db.persons = some 3 :=
  ⟨Or.inl (by decide), c9_cold_start_uses_min_person_modified c9State c9Db (Or.inl (by decide)),
   by decide⟩

/-- C10. For a `JsonFileStorage` constructed with no file path:
`save_state` is a no-op, `retrieve_state` returns the empty mapping, but
`clean_up` raises (`os.path.exists(None)` raises `TypeError`), so the
`State.clean_up` that every successful saver run performs on close fails on
this backend. -/
theorem c10_no_path_storage (fs : Fs) (c : Checkpoint) (dict : Checkpoint)
    (ev : List Event) :
    Storage.save_state (.jsonFile none fs) c = .jsonFile none fs
    ∧ (Storage.retrieve_state (.jsonFile none fs)).1 = []
    ∧ Storage.clean_up (.jsonFile none fs) = .error pathTypeError
    ∧ StateS.clean_up ⟨.jsonFile none fs, dict⟩ = .error pathTypeError
    ∧ load_to_es_close ⟨⟨.jsonFile none fs, dict⟩, ev⟩ = .error pathTypeError :=
  ⟨rfl, rfl, rfl, rfl, rfl⟩

theorem c10_no_path_storage_witness :
    Storage.save_state (.jsonFile none []) [("modified", Val.vstr "1")] = .jsonFile none []
    ∧ (Storage.retrieve_state (.jsonFile none [])).1 = []
    ∧ Storage.clean_up (.jsonFile none []) = .error pathTypeError
    ∧ StateS.clean_up ⟨.jsonFile none [], []⟩ = .error pathTypeError
    ∧ load_to_es_close ⟨⟨.jsonFile none [], []⟩, []⟩ = .error pathTypeError :=
  c10_no_path_storage [] [("modified", Val.vstr "1")] [] []

/-- C6. For a non-empty batch the bulk payload has exactly `2N` lines —
for each document, in document order, the action header
`{"index": {"_index": <collection>, "_id": <id>}}` and then the document's
serialized field set — the posted body joins them with exactly one line
terminator per line, and the line list is persisted under `prepared_query`
before the post event occurs (the trace is: persist, post, watermark write,
error logs). -/
theorem c6_bulk_payload_shape (w : EsWorld) (docs : List ESItem)
    (resp : List (Option String)) (name : String) (_hne : docs ≠ []) :
    (get_es_bulk_query docs name).length = 2 * docs.length
    ∧ (∀ i, (get_es_bulk_query docs name).get? (2 * i)
          = (docs.get? i).map (fun d => esIndexAction name d.id)
        ∧ (get_es_bulk_query docs name).get? (2 * i + 1)
          = (docs.get? i).map dumpsESItem)
    ∧ (load_to_es_batch w docs resp name).events =
        w.events ++
          ([Event.setSt "prepared_query" (Val.vlist (get_es_bulk_query docs name)),
            Event.post (String.intercalate "\n" (get_es_bulk_query docs name) ++ "\n"),
            Event.setSt "modified" (Val.vstr (docs.headD esItemDefault).modified)] ++
           resp.filterMap (fun it => it.map Event.logErr))
    ∧ (load_to_es_batch w docs resp name).st.get_state "prepared_query"
        = some (Val.vlist (get_es_bulk_query docs name)) := by
  refine ⟨bulk_query_length docs name, fun i => bulk_query_alternation name docs i, rfl, ?_⟩
  have hne2 : ¬ ("modified" : String) = "prepared_query" := by decide
  simp [load_to_es_batch, StateS.set_state, StateS.get_state,
    getKey_setKey_other _ _ _ _ hne2, getKey_setKey_self]

theorem c6_bulk_payload_shape_witness :
    ([c6Doc] ≠ [])
    ∧ ((get_es_bulk_query [c6Doc] "movies").length = 2 * [c6Doc].length
      ∧ (∀ i, (get_es_bulk_query [c6Doc] "movies").get? (2 * i)
            = ([c6Doc].get? i).map (fun d => esIndexAction "movies" d.id)
          ∧ (get_es_bulk_query [c6Doc] "movies").get? (2 * i + 1)
            = ([c6Doc].get? i).map dumpsESItem)
      ∧ (load_to_es_batch c6World [c6Doc] [some "boom"] "movies").events =
          c6World.events ++
            ([Event.setSt "prepared_query" (Val.vlist (get_es_bulk_query [c6Doc] "movies")),
              Event.post (String.intercalate "\n" (get_es_bulk_query [c6Doc] "movies") ++ "\n"),
              Event.setSt "modified" (Val.vstr ([c6Doc].headD esItemDefault).modified)] ++
             [some "boom"].filterMap (fun it => it.map Event.logErr))
      ∧ (load_to_es_batch c6World [c6Doc] [some "boom"] "movies").st.get_state "prepared_query"
          = some (Val.vlist (get_es_bulk_query [c6Doc] "movies"))) :=
  ⟨by decide, c6_bulk_payload_shape c6World [c6Doc] [some "boom"] "movies" (by decide)⟩

/-- C7. When a strict subset of the response items carries an error, the
saver logs exactly the erroneous items (in response order) and raises
nothing — the step is a total function — and the checkpoint watermark is
still advanced to the batch head's modification time. -/
theorem c7_partial_failure_isolated (w : EsWorld) (records : List ESItem)
    (resp : List (Option String)) (name : String)
    (_hrec : records ≠ [])
    (_hsome : ∃ it ∈ resp, it.isSome) (_hnotall : ∃ it ∈ resp, it.isNone) :
    loggedErrors (load_to_es_batch w records resp name).events
      = loggedErrors w.events ++ resp.filterMap id
    ∧ (load_to_es_batch w records resp name).st.get_state "modified"
      = some (Val.vstr (records.headD esItemDefault).modified) := by
  constructor
  · simp only [load_to_es_batch]
    rw [loggedErrors_append, loggedErrors_append, loggedErrors_of_logs]
    simp [loggedErrors]
  · simp [load_to_es_batch, StateS.set_state, StateS.get_state, getKey_setKey_self]

theorem c7_partial_failure_isolated_witness :
    (c7Records ≠ [])
    ∧ (∃ it ∈ c7Resp, it.isSome)
    ∧ (∃ it ∈ c7Resp, it.isNone)
    ∧ (loggedErrors (load_to_es_batch c6World c7Records c7Resp "movies").events
        = loggedErrors c6World.events ++ c7Resp.filterMap id
      ∧ (load_to_es_batch c6World c7Records c7Resp "movies").st.get_state "modified"
        = some (Val.vstr (c7Records.headD esItemDefault).modified)) :=
  ⟨by decide, ⟨some "mapper_parsing_exception", by decide⟩, ⟨none, by decide⟩,
   c7_partial_failure_isolated c6World c7Records c7Resp "movies" (by decide)
     ⟨some "mapper_parsing_exception", by decide⟩ ⟨none, by decide⟩⟩

/-- C8. `transform_data` maps each row independently to a document,
preserving batch order (position `i` of the output is `transform_row` of
position `i` of the input), and whenever a row's aggregate field is null the
resulting document carries the empty list for it. -/
theorem c8_transform_order_and_null_aggregates (rows : List FilmWorkRow)
    (items : List ESItem) (h : transform_data rows = .ok items) :
    items.length = rows.length
    ∧ (∀ i, (rows.get? i).map transform_row = (items.get? i).map Except.ok)
    ∧ (∀ i r it, rows.get? i = some r → items.get? i = some it →
        (r.genres = none → it.genres = []) ∧ (r.actors = none → it.actors = [])
        ∧ (r.directors = none → it.directors = [])
        ∧ (r.writers = none → it.writers = [])) := by
  have main : items.length = rows.length
      ∧ (∀ i, (rows.get? i).map transform_row = (items.get? i).map Except.ok) := by
    induction rows generalizing items with
    | nil =>
        simp [transform_data] at h
        subst h
        simp
    | cons r rs ih =>
        cases ht : transform_row r with
        | error e => simp [transform_data, ht] at h
        | ok it0 =>
            cases hts : transform_data rs with
            | error e => simp [transform_data, ht, hts] at h
            | ok its =>
                simp [transform_data, ht, hts] at h
                subst h
                obtain ⟨ihlen, ihget⟩ := ih its hts
                refine ⟨by simp [ihlen], ?_⟩
                intro i
                cases i with
                | zero => simp [ht]
                | succ j => simpa using ihget j
  refine ⟨main.1, main.2, ?_⟩
  intro i r it hr hit
  have hrow := main.2 i
  rw [hr, hit] at hrow
  simp at hrow
  obtain ⟨hg, ha, hd, hw⟩ := transform_row_ok_fields r it hrow
  exact ⟨fun hn => by simp [hg, hn], fun hn => by simp [ha, hn],
    fun hn => by simp [hd, hn], fun hn => by simp [hw, hn]⟩

theorem c8_transform_witness :
    transform_data c8Rows = .ok c8Items
    ∧ (c8Items.length = c8Rows.length
      ∧ (∀ i, (c8Rows.get? i).map transform_row = (c8Items.get? i).map Except.ok)
      ∧ (∀ i r it, c8Rows.get? i = some r → c8Items.get? i = some it →
          (r.genres = none → it.genres = []) ∧ (r.actors = none → it.actors = [])
          ∧ (r.directors = none → it.directors = [])
          ∧ (r.writers = none → it.writers = []))) :=
  ⟨by decide, c8_transform_order_and_null_aggregates c8Rows c8Items (by decide)⟩

set_option maxRecDepth 100000

/-- C1. `load_to_es` does NOT reuse a persisted `prepared_query`: with the
checkpoint already holding `prepared_query = ["SENTINEL"]`, the saver
rebuilds the payload from the incoming batch, overwrites the persisted
value, and posts the freshly built bytes, not the persisted ones. -/
theorem c1_persisted_payload_not_reused :
    c1State.get_state "prepared_query" = some (Val.vlist ["SENTINEL"])
    ∧ c1Run.events.get? 1
      = some (Event.post (String.intercalate "\n" (get_es_bulk_query [c1Item] "movies") ++ "\n"))
    ∧ ¬ c1Run.events.get? 1 = some (Event.post ("SENTINEL" ++ "\n"))
    ∧ c1Run.st.get_state "prepared_query"
      = some (Val.vlist (get_es_bulk_query [c1Item] "movies"))
    ∧ ¬ get_es_bulk_query [c1Item] "movies" = ["SENTINEL"] := by
  decide

/-- C2. On a run of 101 changed film works (modification times 300 down to
200, watermark "0"), `load_movies` produces two `DESC`-ordered batches and
the saver sets `modified` to `records[0].modified`, the NEWEST time of each
batch: after batch 1 the stored watermark is "300" — the run's global
maximum, past every row of the not-yet-indexed second batch — and after
batch 2 it DECREASES to "200". The stored watermark is neither monotone nor
bounded by what has been durably indexed. -/
theorem c2_watermark_overshoots_then_decreases :
    load_movies c2State c2Db [[], []] "movies" = runEtlBatches ⟨c2State, []⟩ "movies" c2Batches
    ∧ c2Batches.length = 2
    ∧ exceptGetModified c2Mid = some (Val.vstr "300")
    ∧ (c2Batches.get? 1).map (fun p => p.1.all (fun r => r.modified < 300)) = some true
    ∧ exceptGetModified (load_movies c2State c2Db [[], []] "movies") = some (Val.vstr "200") := by
  exact ⟨rfl, by decide, by decide, by decide, by decide⟩
